import Mathlib

/-!
Verification of the `tari_deploy` template-deployment pipeline
(`crates/tari_deploy/src/deployer.rs`, `error.rs`) of tari-cli.

The deployer is shallowly embedded: every external effect of
`TemplateDeployer` (file reads, the WASM loader, the uploader, and the
wallet gRPC calls) is an entry of an explicit environment `Env`, and each
method returns its `Result` together with the ordered list of effect
events it issued.  Machine integers (`u64` / `MicroMinotari`) are modelled
as `Nat`: the code only compares and copies them, so no overflow can occur.
-/

deriving instance DecidableEq for Except

namespace TariDeploy

/-- `tari_dan_engine::template::LoadedTemplate`, abstracted to the only
observation the deployer makes of it: `template_name()`. -/
structure LoadedTemplate where
  template_name : String
  deriving DecidableEq, Repr

/-- `crate::error::Error` from `error.rs`.  External error payloads
(`WalletDaemonClientError`, `tonic::Status`, `TemplateLoaderError`,
`io::Error`, `HashParseError`) are modelled by their display strings. -/
inductive Error where
  | WalletDaemonClient (msg : String)
  | Grpc (msg : String)
  | InvalidTemplate (diagnostic : String)
  | IoError (msg : String)
  | InvalidHash (msg : String)
  | InsufficientBalance (current : Nat) (fee : Nat)
  | WaitForTransactionTimeout (txId : String)
  | InvalidTransaction (txId : String) (reason : String)
  | MissingTransactionResult (txId : String)
  | MissingPublishedTemplate
  | InvalidResponse (msg : String)
  deriving DecidableEq, Repr

/-- `minotari_app_grpc::tari_rpc::WasmInfo`. -/
structure WasmInfo where
  abi_version : Nat
  deriving DecidableEq, Repr

/-- The `template_type` oneof of `minotari_app_grpc::tari_rpc::TemplateType`;
the deployer only ever builds the `Wasm` arm. -/
inductive TemplateTypeKind where
  | Wasm (info : WasmInfo)
  | Flow
  | Manifest
  deriving DecidableEq, Repr

/-- `minotari_app_grpc::tari_rpc::TemplateType`. -/
structure TemplateType where
  template_type : Option TemplateTypeKind
  deriving DecidableEq, Repr

/-- `minotari_app_grpc::tari_rpc::BuildInfo`. -/
structure BuildInfo where
  repo_url : String
  commit_hash : List Nat
  deriving DecidableEq, Repr

/-- `minotari_app_grpc::tari_rpc::CreateTemplateRegistrationRequest`
(the fields the deployer sets). -/
structure CreateTemplateRegistrationRequest where
  template_name : String
  template_version : Nat
  template_type : Option TemplateType
  build_info : Option BuildInfo
  binary_sha : List Nat
  binary_url : String
  sidechain_deployment_key : List Nat
  fee_per_gram : Nat
  deriving DecidableEq, Repr

/-- `deployer.rs::DeployParams`.  `tari_template_lib::Hash` is a byte
vector, `url::Url` a string, `PathBuf` a string. -/
inductive DeployParams where
  | Binary (path : String)
  | Uploaded (template : LoadedTemplate) (template_hash : List Nat) (url : String)
  deriving DecidableEq, Repr

/-- One effect issued by the deployer, in program order. -/
inductive Event where
  | readFile (path : String)
  | parseWasm
  | uploadCall (path : String)
  | getBalanceRpc
  | getFeeRpc
  | createRegistrationRpc
  deriving DecidableEq, Repr

/-- The deployer's effect environment: the outcome each external call
would produce.  `fileContents` is `tokio::fs::read`, `parse` is
`WasmModule::load_template_from_code`, `hashFn` is
`template_hasher32().chain(bytes).result()`, `upload` is
`self.uploader.upload`, `balanceResp` is the `get_balance` RPC,
`feeResp` the `get_template_registration_fee` RPC and `registerResp`
the `create_template_registration` RPC (its `template_address` bytes). -/
structure Env where
  fileContents : String → Except String (List Nat)
  parse : List Nat → Except String LoadedTemplate
  hashFn : List Nat → List Nat
  upload : String → Except Error String
  balanceResp : Except Error Nat
  feeResp : CreateTemplateRegistrationRequest → Except Error Nat
  registerResp : CreateTemplateRegistrationRequest → Except Error (List Nat)

/-- `TemplateDeployer::validate_and_load_wasm_template`: read the file,
load the template from the code, hash the raw bytes. -/
def validate_and_load_wasm_template (env : Env) (wasm_template : String) :
    Except Error (LoadedTemplate × List Nat) × List Event :=
  match env.fileContents wasm_template with
  | Except.error e => (Except.error (Error.IoError e), [Event.readFile wasm_template])
  | Except.ok wasm_code =>
    match env.parse wasm_code with
    | Except.error d =>
        (Except.error (Error.InvalidTemplate d),
         [Event.readFile wasm_template, Event.parseWasm])
    | Except.ok template =>
        (Except.ok (template, env.hashFn wasm_code),
         [Event.readFile wasm_template, Event.parseWasm])

/-- `TemplateDeployer::template_registration_request`. -/
def template_registration_request (env : Env) (params : DeployParams)
    (fee_per_gram : Nat) :
    Except Error CreateTemplateRegistrationRequest × List Event :=
  match params with
  | DeployParams.Binary path =>
    match validate_and_load_wasm_template env path with
    | (Except.error e, evs) => (Except.error e, evs)
    | (Except.ok (loaded_template, hash), evs) =>
      match env.upload path with
      | Except.error e => (Except.error e, evs ++ [Event.uploadCall path])
      | Except.ok uploaded_template_url =>
          (Except.ok
            { template_name := loaded_template.template_name
              template_version := 1
              template_type :=
                some { template_type := some (TemplateTypeKind.Wasm { abi_version := 1 }) }
              build_info := some { repo_url := "", commit_hash := [] }
              binary_sha := hash
              binary_url := uploaded_template_url
              sidechain_deployment_key := []
              fee_per_gram := fee_per_gram },
           evs ++ [Event.uploadCall path])
  | DeployParams.Uploaded template template_hash url =>
      (Except.ok
        { template_name := template.template_name
          template_version := 1
          template_type :=
            some { template_type := some (TemplateTypeKind.Wasm { abi_version := 1 }) }
          build_info := some { repo_url := "", commit_hash := [] }
          binary_sha := template_hash
          binary_url := url
          sidechain_deployment_key := []
          fee_per_gram := fee_per_gram },
       [])

/-- `TemplateDeployer::upload_template`: validate and load, then upload,
returning `DeployParams::Uploaded`. -/
def upload_template (env : Env) (wasm_template : String) :
    Except Error DeployParams × List Event :=
  match validate_and_load_wasm_template env wasm_template with
  | (Except.error e, evs) => (Except.error e, evs)
  | (Except.ok (template, template_hash), evs) =>
    match env.upload wasm_template with
    | Except.error e => (Except.error e, evs ++ [Event.uploadCall wasm_template])
    | Except.ok url =>
        (Except.ok (DeployParams.Uploaded template template_hash url),
         evs ++ [Event.uploadCall wasm_template])

/-- `TemplateDeployer::check_balance_to_deploy`: rebuild the registration
request, read the wallet balance, get the fee, and fail with
`InsufficientBalance` when `fee > wallet_balance`. -/
def check_balance_to_deploy (env : Env) (params : DeployParams)
    (fee_per_gram : Nat) : Except Error Unit × List Event :=
  match template_registration_request env params fee_per_gram with
  | (Except.error e, evs) => (Except.error e, evs)
  | (Except.ok request, evs) =>
    match env.balanceResp with
    | Except.error e => (Except.error e, evs ++ [Event.getBalanceRpc])
    | Except.ok wallet_balance =>
      match env.feeResp request with
      | Except.error e => (Except.error e, evs ++ [Event.getBalanceRpc, Event.getFeeRpc])
      | Except.ok fee =>
        if wallet_balance < fee then
          (Except.error (Error.InsufficientBalance wallet_balance fee),
           evs ++ [Event.getBalanceRpc, Event.getFeeRpc])
        else
          (Except.ok (), evs ++ [Event.getBalanceRpc, Event.getFeeRpc])

/-- `Hash::try_from_vec` on the returned `template_address` bytes: a
32-byte hash or a `HashParseError`. -/
def hash_try_from_vec (bytes : List Nat) : Except Error (List Nat) :=
  if bytes.length = 32 then Except.ok bytes
  else Except.error (Error.InvalidHash "invalid size")

/-- `TemplateDeployer::register_template`: issue the
`create_template_registration` RPC and parse the returned address. -/
def register_template (env : Env) (request : CreateTemplateRegistrationRequest) :
    Except Error (List Nat) × List Event :=
  match env.registerResp request with
  | Except.error e => (Except.error e, [Event.createRegistrationRpc])
  | Except.ok addressBytes =>
      (hash_try_from_vec addressBytes, [Event.createRegistrationRpc])

/-- `TemplateDeployer::deploy`: build the registration request, check the
balance, then register. -/
def deploy (env : Env) (params : DeployParams) (fee_per_gram : Nat) :
    Except Error (List Nat) × List Event :=
  match template_registration_request env params fee_per_gram with
  | (Except.error e, evs) => (Except.error e, evs)
  | (Except.ok register_request, evs) =>
    match check_balance_to_deploy env params fee_per_gram with
    | (Except.error e, cevs) => (Except.error e, evs ++ cevs)
    | (Except.ok _, cevs) =>
      match register_template env register_request with
      | (res, gevs) => (res, evs ++ cevs ++ gevs)

/-- Modelled from the spec: the identifier kind of one "created" entry of an
accepted transaction's state diff.  The Publisher / Result Extractor code the
spec describes (wait-for-result handling and template-address extraction) is
not under src/; only the error variants it raises are declared there
(`error.rs`). -/
inductive SubstateKind where
  | Template
  | Component
  | Resource
  | Other (kind : String)
  deriving DecidableEq, Repr

/-- Modelled from the spec: one "created" entry of an accepted state diff:
an identifier kind plus the entry's address. -/
structure CreatedEntry where
  kind : SubstateKind
  address : String
  deriving DecidableEq, Repr

/-- Modelled from the spec: the finalized transaction result variants
`Accept(diff)`, `AcceptFeeRejectRest(_, reason)` and `Reject(reason)`. -/
inductive TxResult where
  | Accept (diff : List CreatedEntry)
  | AcceptFeeRejectRest (reason : String)
  | Reject (reason : String)
  deriving DecidableEq, Repr

/-- Modelled from the spec: the `wait_transaction_result` response, carrying
a `timed_out` flag, a status string, and an optional result payload. -/
structure WaitResponse where
  timed_out : Bool
  status : String
  result : Option TxResult
  deriving DecidableEq, Repr

/-- Modelled from the spec (Result Extractor): scan the accepted state
diff's created entries in their returned order for the first entry whose
identifier kind is "template" and return its address; otherwise fail with
`MissingPublishedTemplate`. -/
def extract_template_address (diff : List CreatedEntry) : Except Error String :=
  match diff.find? (fun e => decide (e.kind = SubstateKind.Template)) with
  | some e => Except.ok e.address
  | none => Except.error Error.MissingPublishedTemplate

/-- Modelled from the spec (Publisher outcome handling): `timed_out` yields
`WaitForTransactionTimeout`, a missing result payload yields
`MissingTransactionResult`, non-acceptance yields `InvalidTransaction`
with the reason, and full acceptance proceeds to extraction. -/
def handle_wait_result (txId : String) (resp : WaitResponse) : Except Error String :=
  if resp.timed_out then Except.error (Error.WaitForTransactionTimeout txId)
  else
    match resp.result with
    | none => Except.error (Error.MissingTransactionResult txId)
    | some (TxResult.Accept diff) => extract_template_address diff
    | some (TxResult.AcceptFeeRejectRest reason) =>
        Except.error (Error.InvalidTransaction txId reason)
    | some (TxResult.Reject reason) =>
        Except.error (Error.InvalidTransaction txId reason)

/-- Modelled from the spec (Fee Estimator / external interfaces): the
dry-run `publish_template` response, carrying a transaction id and an
optional dry-run fee.  The fee figure may be absent. -/
structure PublishDryRunResponse where
  transaction_id : String
  dry_run_fee : Option Nat
  deriving DecidableEq, Repr

/-- Modelled from the spec (Fee Estimator): the response must contain a fee
figure; absence is reported as `InvalidResponse`, never defaulted. -/
def estimate_fee_from_response (resp : PublishDryRunResponse) : Except Error Nat :=
  match resp.dry_run_fee with
  | some fee => Except.ok fee
  | none => Except.error (Error.InvalidResponse "Missing dry run fee in response")

/-- A concrete environment for evaluation: a readable 2-byte file at
"counter.wasm", a parser that accepts it, balance 500, fee 1000. -/
def envLow : Env where
  fileContents := fun p => if p = "counter.wasm" then Except.ok [0, 97] else Except.error "not found"
  parse := fun _ => Except.ok { template_name := "counter" }
  hashFn := fun code => 0 :: code
  upload := fun _ => Except.ok "http://localhost/counter.wasm"
  balanceResp := Except.ok 500
  feeResp := fun _ => Except.ok 1000
  registerResp := fun _ => Except.ok (List.replicate 32 0)

/-- Same environment with balance 5000, so the deployment proceeds. -/
def envHigh : Env :=
  { envLow with balanceResp := Except.ok 5000 }

/-- Same environment except that the WASM loader rejects the module. -/
def envBadParse : Env :=
  { envLow with parse := fun _ => Except.error "unexpected ABI version" }

/-- The already-uploaded params the sample environments produce for
"counter.wasm". -/
def uploadedCounter : DeployParams :=
  DeployParams.Uploaded { template_name := "counter" } [0, 0, 97]
    "http://localhost/counter.wasm"

/-- The registration request the sample environments build for
"counter.wasm" at a given fee_per_gram. -/
def reqCounter (fpg : Nat) : CreateTemplateRegistrationRequest :=
  { template_name := "counter"
    template_version := 1
    template_type :=
      some { template_type := some (TemplateTypeKind.Wasm { abi_version := 1 }) }
    build_info := some { repo_url := "", commit_hash := [] }
    binary_sha := [0, 0, 97]
    binary_url := "http://localhost/counter.wasm"
    sidechain_deployment_key := []
    fee_per_gram := fpg }

/-!  Helper lemmas shared by several results below. -/

theorem validate_trace_no_rpc (env : Env) (p : String) :
    ∀ e ∈ (validate_and_load_wasm_template env p).2,
      e = Event.readFile p ∨ e = Event.parseWasm := by
  unfold validate_and_load_wasm_template
  split
  · simp
  · split <;> simp

theorem request_trace_no_rpc (env : Env) (params : DeployParams) (fpg : Nat) :
    ∀ e ∈ (template_registration_request env params fpg).2,
      (∃ p, e = Event.readFile p) ∨ e = Event.parseWasm ∨ (∃ p, e = Event.uploadCall p) := by
  intro e he
  unfold template_registration_request at he
  split at he
  next path =>
    have hv := validate_trace_no_rpc env path
    split at he
    next e' evs heq =>
      rw [heq] at hv
      rcases hv e he with h | h
      · exact Or.inl ⟨path, h⟩
      · exact Or.inr (Or.inl h)
    next lt hash evs heq =>
      rw [heq] at hv
      split at he <;>
      · simp only [List.mem_append, List.mem_singleton] at he
        rcases he with he | he
        · rcases hv e he with h | h
          · exact Or.inl ⟨path, h⟩
          · exact Or.inr (Or.inl h)
        · exact Or.inr (Or.inr ⟨path, he⟩)
  next t h u =>
    simp at he

theorem check_trace_split (env : Env) (params : DeployParams) (fpg : Nat) :
    ∃ tail, (check_balance_to_deploy env params fpg).2
        = (template_registration_request env params fpg).2 ++ tail
      ∧ ∀ e ∈ tail, e = Event.getBalanceRpc ∨ e = Event.getFeeRpc := by
  unfold check_balance_to_deploy
  split
  next e' evs heq => exact ⟨[], by simp [heq], by simp⟩
  next req evs heq =>
    split
    · exact ⟨[Event.getBalanceRpc], by simp [heq], by simp⟩
    · split
      · exact ⟨[Event.getBalanceRpc, Event.getFeeRpc], by simp [heq], by simp⟩
      · split
        · exact ⟨[Event.getBalanceRpc, Event.getFeeRpc], by simp [heq], by simp⟩
        · exact ⟨[Event.getBalanceRpc, Event.getFeeRpc], by simp [heq], by simp⟩

theorem request_trace_no_registration_rpc (env : Env) (params : DeployParams) (fpg : Nat) :
    Event.createRegistrationRpc ∉ (template_registration_request env params fpg).2 := by
  intro hm
  rcases request_trace_no_rpc env params fpg Event.createRegistrationRpc hm with
    ⟨p, h⟩ | h | ⟨p, h⟩ <;> simp at h

theorem check_trace_no_registration_rpc (env : Env) (params : DeployParams) (fpg : Nat) :
    Event.createRegistrationRpc ∉ (check_balance_to_deploy env params fpg).2 := by
  obtain ⟨tail, htr, hta⟩ := check_trace_split env params fpg
  rw [htr]
  intro hmem
  rcases List.mem_append.mp hmem with hmem | hmem
  · exact request_trace_no_registration_rpc env params fpg hmem
  · rcases hta _ hmem with h | h <;> simp at h

theorem deploy_no_registration_of_check_fails (env : Env) (params : DeployParams)
    (fpg : Nat)
    (h : (check_balance_to_deploy env params fpg).1 ≠ Except.ok ()) :
    Event.createRegistrationRpc ∉ (deploy env params fpg).2 := by
  intro hmem
  have hnotreq := request_trace_no_registration_rpc env params fpg
  have hnotchk := check_trace_no_registration_rpc env params fpg
  unfold deploy at hmem
  split at hmem
  next e' evs heq =>
    rw [heq] at hnotreq
    exact hnotreq hmem
  next req evs heq =>
    rw [heq] at hnotreq
    split at hmem
    next e'' cevs heq2 =>
      rw [heq2] at hnotchk
      rcases List.mem_append.mp hmem with hmem | hmem
      · exact hnotreq hmem
      · exact hnotchk hmem
    next u cevs heq2 =>
      exact h (by rw [heq2])

theorem request_ok_uploaded (env : Env) (t : LoadedTemplate) (h : List Nat)
    (u : String) (fpg : Nat) (req : CreateTemplateRegistrationRequest)
    (hreq : (template_registration_request env (DeployParams.Uploaded t h u) fpg).1
      = Except.ok req) :
    req = { template_name := t.template_name
            template_version := 1
            template_type :=
              some { template_type := some (TemplateTypeKind.Wasm { abi_version := 1 }) }
            build_info := some { repo_url := "", commit_hash := [] }
            binary_sha := h
            binary_url := u
            sidechain_deployment_key := []
            fee_per_gram := fpg } := by
  unfold template_registration_request at hreq
  exact (Except.ok.inj hreq).symm

theorem request_ok_binary (env : Env) (p : String) (fpg : Nat)
    (req : CreateTemplateRegistrationRequest)
    (hreq : (template_registration_request env (DeployParams.Binary p) fpg).1
      = Except.ok req) :
    ∃ code t u, env.fileContents p = Except.ok code ∧ env.parse code = Except.ok t
      ∧ env.upload p = Except.ok u
      ∧ req = { template_name := t.template_name
                template_version := 1
                template_type :=
                  some { template_type := some (TemplateTypeKind.Wasm { abi_version := 1 }) }
                build_info := some { repo_url := "", commit_hash := [] }
                binary_sha := env.hashFn code
                binary_url := u
                sidechain_deployment_key := []
                fee_per_gram := fpg } := by
  rcases hfile : env.fileContents p with e | code
  · simp [template_registration_request, validate_and_load_wasm_template, hfile] at hreq
  · rcases hparse : env.parse code with d | t
    · simp [template_registration_request, validate_and_load_wasm_template, hfile, hparse] at hreq
    · rcases hupload : env.upload p with e | u
      · simp [template_registration_request, validate_and_load_wasm_template,
          hfile, hparse, hupload] at hreq
      · refine ⟨code, t, u, rfl, hparse, rfl, ?_⟩
        simp [template_registration_request, validate_and_load_wasm_template,
          hfile, hparse, hupload] at hreq
        exact hreq.symm

theorem upload_template_ok (env : Env) (p : String) (dp : DeployParams)
    (hup : (upload_template env p).1 = Except.ok dp) :
    ∃ code t u, env.fileContents p = Except.ok code ∧ env.parse code = Except.ok t
      ∧ env.upload p = Except.ok u
      ∧ dp = DeployParams.Uploaded t (env.hashFn code) u := by
  rcases hfile : env.fileContents p with e | code
  · simp [upload_template, validate_and_load_wasm_template, hfile] at hup
  · rcases hparse : env.parse code with d | t
    · simp [upload_template, validate_and_load_wasm_template, hfile, hparse] at hup
    · rcases hupload : env.upload p with e | u
      · simp [upload_template, validate_and_load_wasm_template, hfile, hparse, hupload] at hup
      · refine ⟨code, t, u, rfl, hparse, rfl, ?_⟩
        simp [upload_template, validate_and_load_wasm_template, hfile, hparse, hupload] at hup
        exact hup.symm

theorem check_balance_insufficient (env : Env) (params : DeployParams)
    (fpg b f : Nat) (req : CreateTemplateRegistrationRequest)
    (hreq : (template_registration_request env params fpg).1 = Except.ok req)
    (hb : env.balanceResp = Except.ok b)
    (hf : env.feeResp req = Except.ok f)
    (hlt : b < f) :
    (check_balance_to_deploy env params fpg).1
      = Except.error (Error.InsufficientBalance b f) := by
  rcases hpair : template_registration_request env params fpg with ⟨res, evs⟩
  rw [hpair] at hreq
  have hres : res = Except.ok req := hreq
  subst hres
  unfold check_balance_to_deploy
  rw [hpair]
  simp [hb, hf, hlt]

theorem check_balance_sufficient (env : Env) (params : DeployParams)
    (fpg b f : Nat) (req : CreateTemplateRegistrationRequest)
    (hreq : (template_registration_request env params fpg).1 = Except.ok req)
    (hb : env.balanceResp = Except.ok b)
    (hf : env.feeResp req = Except.ok f)
    (hle : f ≤ b) :
    (check_balance_to_deploy env params fpg).1 = Except.ok () := by
  rcases hpair : template_registration_request env params fpg with ⟨res, evs⟩
  rw [hpair] at hreq
  have hres : res = Except.ok req := hreq
  subst hres
  unfold check_balance_to_deploy
  rw [hpair]
  have hnlt : ¬ b < f := by omega
  simp [hb, hf, hnlt]

theorem deploy_of_check_error (env : Env) (params : DeployParams) (fpg : Nat)
    (e : Error) (req : CreateTemplateRegistrationRequest)
    (hreq : (template_registration_request env params fpg).1 = Except.ok req)
    (hc : (check_balance_to_deploy env params fpg).1 = Except.error e) :
    (deploy env params fpg).1 = Except.error e := by
  rcases hpair : template_registration_request env params fpg with ⟨res, evs⟩
  rw [hpair] at hreq
  have hres : res = Except.ok req := hreq
  subst hres
  rcases hcp : check_balance_to_deploy env params fpg with ⟨cres, cevs⟩
  rw [hcp] at hc
  have hce : cres = Except.error e := hc
  subst hce
  unfold deploy
  rw [hpair, hcp]

/-- C1: for every account balance `b` and estimated fee `f` obtained by the
balance check's RPCs, `check_balance_to_deploy` succeeds iff `f ≤ b` (so it
fails iff `f > b`, and never fails when `f = b`), and when it fails it
returns `InsufficientBalance` carrying the current balance `b` and the
required fee `f`. -/
theorem check_balance_to_deploy_fails_iff_fee_exceeds_balance
    (env : Env) (params : DeployParams) (fpg b f : Nat)
    (req : CreateTemplateRegistrationRequest)
    (hreq : (template_registration_request env params fpg).1 = Except.ok req)
    (hb : env.balanceResp = Except.ok b)
    (hf : env.feeResp req = Except.ok f) :
    ((check_balance_to_deploy env params fpg).1 = Except.ok () ↔ f ≤ b)
      ∧ (b < f → (check_balance_to_deploy env params fpg).1
          = Except.error (Error.InsufficientBalance b f)) := by
  constructor
  · constructor
    · intro hok
      by_contra hgt
      have hlt : b < f := by omega
      rw [check_balance_insufficient env params fpg b f req hreq hb hf hlt] at hok
      cases hok
    · intro hle
      exact check_balance_sufficient env params fpg b f req hreq hb hf hle
  · intro hlt
    exact check_balance_insufficient env params fpg b f req hreq hb hf hlt

theorem check_balance_to_deploy_fails_iff_fee_exceeds_balance_witness :
    ((check_balance_to_deploy envLow (DeployParams.Binary "counter.wasm") 5).1
        = Except.ok () ↔ (1000 : Nat) ≤ 500)
      ∧ ((500 : Nat) < 1000 →
        (check_balance_to_deploy envLow (DeployParams.Binary "counter.wasm") 5).1
          = Except.error (Error.InsufficientBalance 500 1000)) :=
  check_balance_to_deploy_fails_iff_fee_exceeds_balance envLow
    (DeployParams.Binary "counter.wasm") 5 500 1000
    { template_name := "counter"
      template_version := 1
      template_type :=
        some { template_type := some (TemplateTypeKind.Wasm { abi_version := 1 }) }
      build_info := some { repo_url := "", commit_hash := [] }
      binary_sha := [0, 0, 97]
      binary_url := "http://localhost/counter.wasm"
      sidechain_deployment_key := []
      fee_per_gram := 5 }
    rfl rfl rfl

/-- C2 as stated is false: with Binary params, `deploy` issues the template
upload (a network-mutating call) while building the registration request,
before the Balance Guard runs; here the balance check fails, yet the upload
was already issued in that run. -/
theorem deploy_mutates_before_balance_check_counterexample :
    (check_balance_to_deploy envLow (DeployParams.Binary "counter.wasm") 5).1
        = Except.error (Error.InsufficientBalance 500 1000)
      ∧ (deploy envLow (DeployParams.Binary "counter.wasm") 5).1
        = Except.error (Error.InsufficientBalance 500 1000)
      ∧ Event.uploadCall "counter.wasm"
          ∈ (deploy envLow (DeployParams.Binary "counter.wasm") 5).2 :=
  ⟨rfl, rfl, by decide⟩

/-- C2 amended: in every run of `deploy` in which the balance check has not
passed, the template-registration submission (the only state-mutating wallet
RPC) has not been issued; template uploads, however, may already have
occurred while building the registration request. -/
theorem deploy_no_registration_without_balance_pass
    (env : Env) (params : DeployParams) (fpg : Nat)
    (h : (check_balance_to_deploy env params fpg).1 ≠ Except.ok ()) :
    Event.createRegistrationRpc ∉ (deploy env params fpg).2 :=
  deploy_no_registration_of_check_fails env params fpg h

theorem deploy_no_registration_without_balance_pass_witness :
    Event.createRegistrationRpc
      ∉ (deploy envLow (DeployParams.Binary "counter.wasm") 5).2 :=
  deploy_no_registration_without_balance_pass envLow
    (DeployParams.Binary "counter.wasm") 5 (by decide)

/-- C3: when the estimated fee exceeds the available balance, `deploy`
returns `InsufficientBalance` with the actual current balance and fee, and
the real registration RPC is never issued in that run. -/
theorem deploy_insufficient_balance_no_registration_rpc
    (env : Env) (params : DeployParams) (fpg b f : Nat)
    (req : CreateTemplateRegistrationRequest)
    (hreq : (template_registration_request env params fpg).1 = Except.ok req)
    (hb : env.balanceResp = Except.ok b)
    (hf : env.feeResp req = Except.ok f)
    (hlt : b < f) :
    (deploy env params fpg).1 = Except.error (Error.InsufficientBalance b f)
      ∧ Event.createRegistrationRpc ∉ (deploy env params fpg).2 := by
  have hc := check_balance_insufficient env params fpg b f req hreq hb hf hlt
  constructor
  · exact deploy_of_check_error env params fpg _ req hreq hc
  · exact deploy_no_registration_of_check_fails env params fpg (by rw [hc]; simp)

theorem deploy_insufficient_balance_no_registration_rpc_witness :
    (deploy envLow (DeployParams.Binary "counter.wasm") 5).1
        = Except.error (Error.InsufficientBalance 500 1000)
      ∧ Event.createRegistrationRpc
          ∉ (deploy envLow (DeployParams.Binary "counter.wasm") 5).2 :=
  deploy_insufficient_balance_no_registration_rpc envLow
    (DeployParams.Binary "counter.wasm") 5 500 1000
    { template_name := "counter"
      template_version := 1
      template_type :=
        some { template_type := some (TemplateTypeKind.Wasm { abi_version := 1 }) }
      build_info := some { repo_url := "", commit_hash := [] }
      binary_sha := [0, 0, 97]
      binary_url := "http://localhost/counter.wasm"
      sidechain_deployment_key := []
      fee_per_gram := 5 }
    rfl rfl rfl (by omega)

/-- C4: the content hash is a deterministic function of the raw bytes
alone: the registration request built from the already-uploaded params
produced by `upload_template` on a file and the one built from the
Path-based (`Binary`) variant on the same file carry the identical content
hash, namely the hash of the file's raw bytes. -/
theorem content_hash_identical_across_variants
    (env : Env) (p : String) (fpg : Nat) (code : List Nat) (dp : DeployParams)
    (req1 req2 : CreateTemplateRegistrationRequest)
    (hfile : env.fileContents p = Except.ok code)
    (hup : (upload_template env p).1 = Except.ok dp)
    (hr1 : (template_registration_request env dp fpg).1 = Except.ok req1)
    (hr2 : (template_registration_request env (DeployParams.Binary p) fpg).1
      = Except.ok req2) :
    req1.binary_sha = env.hashFn code ∧ req2.binary_sha = env.hashFn code := by
  obtain ⟨code', t, u, hfile', hparse', hupload', hdp⟩ := upload_template_ok env p dp hup
  have hcode : code = code' := by
    rw [hfile] at hfile'
    exact Except.ok.inj hfile'
  subst hcode
  subst hdp
  have h1 := request_ok_uploaded env t (env.hashFn code) u fpg req1 hr1
  obtain ⟨code2, t2, u2, hfile2, hparse2, hupload2, hreq2⟩ :=
    request_ok_binary env p fpg req2 hr2
  have hcode2 : code = code2 := by
    rw [hfile] at hfile2
    exact Except.ok.inj hfile2
  subst hcode2
  constructor
  · rw [h1]
  · rw [hreq2]

theorem content_hash_identical_across_variants_witness :
    ({ template_name := "counter"
       template_version := 1
       template_type :=
         some { template_type := some (TemplateTypeKind.Wasm { abi_version := 1 }) }
       build_info := some { repo_url := "", commit_hash := [] }
       binary_sha := [0, 0, 97]
       binary_url := "http://localhost/counter.wasm"
       sidechain_deployment_key := []
       fee_per_gram := 5 } : CreateTemplateRegistrationRequest).binary_sha
        = envLow.hashFn [0, 97]
      ∧ ({ template_name := "counter"
           template_version := 1
           template_type :=
             some { template_type := some (TemplateTypeKind.Wasm { abi_version := 1 }) }
           build_info := some { repo_url := "", commit_hash := [] }
           binary_sha := [0, 0, 97]
           binary_url := "http://localhost/counter.wasm"
           sidechain_deployment_key := []
           fee_per_gram := 5 } : CreateTemplateRegistrationRequest).binary_sha
        = envLow.hashFn [0, 97] :=
  content_hash_identical_across_variants envLow "counter.wasm" 5 [0, 97]
    (DeployParams.Uploaded { template_name := "counter" } [0, 0, 97]
      "http://localhost/counter.wasm")
    _ _ rfl rfl rfl rfl

/-- C8: bytes that do not parse as a valid template module fail validation
with `InvalidTemplate` carrying the parser's diagnostic; a Path whose file
cannot be read fails with the I/O error, and no module is loaded (the
parser is never invoked: the trace holds only the file read). -/
theorem validate_and_load_wasm_template_error_cases (env : Env) (p : String) :
    (∀ e, env.fileContents p = Except.error e →
      validate_and_load_wasm_template env p
        = (Except.error (Error.IoError e), [Event.readFile p]))
      ∧ (∀ code d, env.fileContents p = Except.ok code →
          env.parse code = Except.error d →
          validate_and_load_wasm_template env p
            = (Except.error (Error.InvalidTemplate d),
               [Event.readFile p, Event.parseWasm])) := by
  constructor
  · intro e he
    unfold validate_and_load_wasm_template
    rw [he]
  · intro code d hc hd
    simp only [validate_and_load_wasm_template, hc, hd]

theorem validate_and_load_wasm_template_error_cases_witness :
    validate_and_load_wasm_template envLow "missing"
        = (Except.error (Error.IoError "not found"), [Event.readFile "missing"])
      ∧ validate_and_load_wasm_template envBadParse "counter.wasm"
        = (Except.error (Error.InvalidTemplate "unexpected ABI version"),
           [Event.readFile "counter.wasm", Event.parseWasm]) :=
  ⟨(validate_and_load_wasm_template_error_cases envLow "missing").1 "not found" rfl,
   (validate_and_load_wasm_template_error_cases envBadParse "counter.wasm").2
     [0, 97] "unexpected ABI version" rfl rfl⟩

/-- C10: every successfully built registration request has
template_version 1, a WASM template type with abi_version 1, empty build
info, an empty sidechain deployment key, fee_per_gram equal to the given
fee value, and binary_sha / binary_url equal to the template's content
hash and upload URL, in both params variants. -/
theorem template_registration_request_field_contents
    (env : Env) (params : DeployParams) (fpg : Nat)
    (req : CreateTemplateRegistrationRequest)
    (hreq : (template_registration_request env params fpg).1 = Except.ok req) :
    req.template_version = 1
      ∧ req.template_type
          = some { template_type := some (TemplateTypeKind.Wasm { abi_version := 1 }) }
      ∧ req.build_info = some { repo_url := "", commit_hash := [] }
      ∧ req.sidechain_deployment_key = []
      ∧ req.fee_per_gram = fpg
      ∧ (∀ t hsh u, params = DeployParams.Uploaded t hsh u →
          req.binary_sha = hsh ∧ req.binary_url = u)
      ∧ (∀ p, params = DeployParams.Binary p →
          ∃ code, env.fileContents p = Except.ok code
            ∧ req.binary_sha = env.hashFn code
            ∧ env.upload p = Except.ok req.binary_url) := by
  cases params with
  | Binary p =>
    obtain ⟨code, t, u, hfile, hparse, hupload, hreqeq⟩ :=
      request_ok_binary env p fpg req hreq
    subst hreqeq
    refine ⟨rfl, rfl, rfl, rfl, rfl, ?_, ?_⟩
    · intro t' h' u' hcontra
      cases hcontra
    · intro p' hp
      injection hp with hp'
      subst hp'
      exact ⟨code, hfile, rfl, hupload⟩
  | Uploaded t hsh u =>
    have hreqeq := request_ok_uploaded env t hsh u fpg req hreq
    subst hreqeq
    refine ⟨rfl, rfl, rfl, rfl, rfl, ?_, ?_⟩
    · intro t' h' u' heq
      injection heq with h1 h2 h3
      subst h2
      subst h3
      exact ⟨rfl, rfl⟩
    · intro p hcontra
      cases hcontra

theorem template_registration_request_field_contents_witness :
    (reqCounter 7).template_version = 1
      ∧ (reqCounter 7).template_type
          = some { template_type := some (TemplateTypeKind.Wasm { abi_version := 1 }) }
      ∧ (reqCounter 7).build_info = some { repo_url := "", commit_hash := [] }
      ∧ (reqCounter 7).sidechain_deployment_key = []
      ∧ (reqCounter 7).fee_per_gram = 7
      ∧ (∀ t hsh u, uploadedCounter = DeployParams.Uploaded t hsh u →
          (reqCounter 7).binary_sha = hsh ∧ (reqCounter 7).binary_url = u)
      ∧ (∀ p, uploadedCounter = DeployParams.Binary p →
          ∃ code, envLow.fileContents p = Except.ok code
            ∧ (reqCounter 7).binary_sha = envLow.hashFn code
            ∧ envLow.upload p = Except.ok (reqCounter 7).binary_url) :=
  template_registration_request_field_contents envLow uploadedCounter 7
    (reqCounter 7) rfl

theorem register_trace_eq (env : Env) (req : CreateTemplateRegistrationRequest) :
    (register_template env req).2 = [Event.createRegistrationRpc] := by
  unfold register_template
  split <;> rfl

theorem uploaded_trace_rpc_only (env : Env) (t : LoadedTemplate) (hsh : List Nat)
    (u : String) (fpg : Nat) :
    ∀ e ∈ (deploy env (DeployParams.Uploaded t hsh u) fpg).2,
      e = Event.getBalanceRpc ∨ e = Event.getFeeRpc
        ∨ e = Event.createRegistrationRpc := by
  intro e he
  obtain ⟨tail, htr, hta⟩ := check_trace_split env (DeployParams.Uploaded t hsh u) fpg
  have hrrt : (template_registration_request env (DeployParams.Uploaded t hsh u) fpg).2
      = [] := rfl
  rw [hrrt, List.nil_append] at htr
  unfold deploy at he
  split at he
  next e' evs heq =>
    have hevs : evs = [] := by rw [← hrrt, heq]
    subst hevs
    simp at he
  next req evs heq =>
    have hevs : evs = [] := by rw [← hrrt, heq]
    subst hevs
    split at he
    next e'' cevs heq2 =>
      have hcevs : cevs = tail := by rw [← htr, heq2]
      subst hcevs
      simp only [List.nil_append] at he
      exact (hta e he).imp id Or.inl
    next u' cevs heq2 =>
      have hcevs : cevs = tail := by rw [← htr, heq2]
      subst hcevs
      rcases hg : register_template env req with ⟨res2, gevs⟩
      rw [hg] at he
      have hgevs : gevs = [Event.createRegistrationRpc] := by
        rw [← register_trace_eq env req, hg]
      subst hgevs
      simp only [List.nil_append, List.mem_append, List.mem_singleton] at he
      rcases he with he | he
      · exact (hta e he).imp id Or.inl
      · exact Or.inr (Or.inr he)

/-- C9: with Binary params, `deploy` reads and validates the binary twice
and invokes the uploader twice on the same path — once while building the
registration request and once again inside the balance check — all before
the single registration RPC; with Uploaded params it performs no file read
and no upload. -/
theorem deploy_binary_double_work_uploaded_none
    (env : Env) (p : String) (fpg b f : Nat) (code : List Nat)
    (t : LoadedTemplate) (u : String)
    (req : CreateTemplateRegistrationRequest)
    (hfile : env.fileContents p = Except.ok code)
    (hparse : env.parse code = Except.ok t)
    (hupload : env.upload p = Except.ok u)
    (hreq : (template_registration_request env (DeployParams.Binary p) fpg).1
      = Except.ok req)
    (hb : env.balanceResp = Except.ok b)
    (hf : env.feeResp req = Except.ok f)
    (hle : f ≤ b) :
    (deploy env (DeployParams.Binary p) fpg).2
      = [Event.readFile p, Event.parseWasm, Event.uploadCall p,
         Event.readFile p, Event.parseWasm, Event.uploadCall p,
         Event.getBalanceRpc, Event.getFeeRpc, Event.createRegistrationRpc]
      ∧ ∀ (t' : LoadedTemplate) (hsh : List Nat) (u' q : String),
          Event.readFile q ∉ (deploy env (DeployParams.Uploaded t' hsh u') fpg).2
            ∧ Event.uploadCall q ∉ (deploy env (DeployParams.Uploaded t' hsh u') fpg).2 := by
  have hv : validate_and_load_wasm_template env p
      = (Except.ok (t, env.hashFn code), [Event.readFile p, Event.parseWasm]) := by
    simp only [validate_and_load_wasm_template, hfile, hparse]
  have hr2 : (template_registration_request env (DeployParams.Binary p) fpg).2
      = [Event.readFile p, Event.parseWasm, Event.uploadCall p] := by
    simp [template_registration_request, hv, hupload]
  have hrr : template_registration_request env (DeployParams.Binary p) fpg
      = (Except.ok req, [Event.readFile p, Event.parseWasm, Event.uploadCall p]) := by
    rw [← hreq, ← hr2]
  have hnlt : ¬ b < f := by omega
  have hcheck : check_balance_to_deploy env (DeployParams.Binary p) fpg
      = (Except.ok (), [Event.readFile p, Event.parseWasm, Event.uploadCall p,
          Event.getBalanceRpc, Event.getFeeRpc]) := by
    unfold check_balance_to_deploy
    rw [hrr]
    simp [hb, hf, hnlt]
  constructor
  · rcases hg : register_template env req with ⟨res2, gevs⟩
    have hgevs : gevs = [Event.createRegistrationRpc] := by
      rw [← register_trace_eq env req, hg]
    subst hgevs
    unfold deploy
    simp only [hrr, hcheck, hg]
    rfl
  · intro t' hsh u' q
    constructor <;>
    · intro hm
      rcases uploaded_trace_rpc_only env t' hsh u' fpg _ hm with h | h | h <;> cases h

theorem deploy_binary_double_work_uploaded_none_witness :
    (deploy envHigh (DeployParams.Binary "counter.wasm") 5).2
      = [Event.readFile "counter.wasm", Event.parseWasm, Event.uploadCall "counter.wasm",
         Event.readFile "counter.wasm", Event.parseWasm, Event.uploadCall "counter.wasm",
         Event.getBalanceRpc, Event.getFeeRpc, Event.createRegistrationRpc]
      ∧ ∀ (t' : LoadedTemplate) (hsh : List Nat) (u' q : String),
          Event.readFile q ∉ (deploy envHigh (DeployParams.Uploaded t' hsh u') 5).2
            ∧ Event.uploadCall q ∉ (deploy envHigh (DeployParams.Uploaded t' hsh u') 5).2 :=
  deploy_binary_double_work_uploaded_none envHigh "counter.wasm" 5 5000 1000 [0, 97]
    { template_name := "counter" } "http://localhost/counter.wasm" (reqCounter 5)
    rfl rfl rfl rfl rfl rfl (by omega)

/-- C5 (spec-modelled Publisher): a wait response with timed_out = true
makes the Publisher return WaitForTransactionTimeout carrying the
transaction id, and it never proceeds to report a template address in
that run. -/
theorem handle_wait_result_timed_out (txId : String) (resp : WaitResponse)
    (h : resp.timed_out = true) :
    handle_wait_result txId resp
        = Except.error (Error.WaitForTransactionTimeout txId)
      ∧ ∀ addr, handle_wait_result txId resp ≠ Except.ok addr := by
  unfold handle_wait_result
  rw [h]
  simp

theorem handle_wait_result_timed_out_witness :
    handle_wait_result "tx-1" { timed_out := true, status := "Pending", result := none }
        = Except.error (Error.WaitForTransactionTimeout "tx-1")
      ∧ ∀ addr,
          handle_wait_result "tx-1" { timed_out := true, status := "Pending", result := none }
            ≠ Except.ok addr :=
  handle_wait_result_timed_out "tx-1"
    { timed_out := true, status := "Pending", result := none } rfl

/-- C6 (spec-modelled Result Extractor): an accepted result whose state
diff has no created entry of template kind makes the pipeline return
MissingPublishedTemplate, never any (default or empty) template address. -/
theorem accept_without_template_entry_missing_published
    (txId st : String) (diff : List CreatedEntry)
    (h : ∀ e ∈ diff, e.kind ≠ SubstateKind.Template) :
    handle_wait_result txId
        { timed_out := false, status := st, result := some (TxResult.Accept diff) }
        = Except.error Error.MissingPublishedTemplate
      ∧ ∀ addr,
          handle_wait_result txId
            { timed_out := false, status := st, result := some (TxResult.Accept diff) }
            ≠ Except.ok addr := by
  have hfind : diff.find? (fun e => decide (e.kind = SubstateKind.Template)) = none := by
    rw [List.find?_eq_none]
    intro x hx
    simp [h x hx]
  have hext : extract_template_address diff
      = Except.error Error.MissingPublishedTemplate := by
    unfold extract_template_address
    rw [hfind]
  unfold handle_wait_result
  simp [hext]

theorem accept_without_template_entry_missing_published_witness :
    handle_wait_result "tx-1"
        { timed_out := false, status := "Accepted",
          result := some (TxResult.Accept
            [{ kind := SubstateKind.Component, address := "comp-1" }]) }
        = Except.error Error.MissingPublishedTemplate
      ∧ ∀ addr,
          handle_wait_result "tx-1"
            { timed_out := false, status := "Accepted",
              result := some (TxResult.Accept
                [{ kind := SubstateKind.Component, address := "comp-1" }]) }
            ≠ Except.ok addr :=
  accept_without_template_entry_missing_published "tx-1" "Accepted"
    [{ kind := SubstateKind.Component, address := "comp-1" }] (by decide)

/-- C7 (spec-modelled Fee Estimator): a dry-run response lacking a fee
figure is reported as InvalidResponse; no default fee is ever
substituted. -/
theorem estimate_fee_missing_fee_is_invalid_response
    (resp : PublishDryRunResponse) (h : resp.dry_run_fee = none) :
    estimate_fee_from_response resp
        = Except.error (Error.InvalidResponse "Missing dry run fee in response")
      ∧ ∀ fee, estimate_fee_from_response resp ≠ Except.ok fee := by
  unfold estimate_fee_from_response
  rw [h]
  simp

theorem estimate_fee_missing_fee_is_invalid_response_witness :
    estimate_fee_from_response { transaction_id := "tx-1", dry_run_fee := none }
        = Except.error (Error.InvalidResponse "Missing dry run fee in response")
      ∧ ∀ fee,
          estimate_fee_from_response { transaction_id := "tx-1", dry_run_fee := none }
            ≠ Except.ok fee :=
  estimate_fee_missing_fee_is_invalid_response
    { transaction_id := "tx-1", dry_run_fee := none } rfl

end TariDeploy
